import Mathlib

/-!
Verification of the kgym gym-management application's business-rule layer.

The definitions below are a shallow embedding of the TypeScript source:
calendar dates and timestamps model the JavaScript `Date` values used by the
app (a `YYYY-MM-DD` string parses to 00:00 UTC of that day; `new Date()` is
the current timestamp in milliseconds), the row-oriented store is modelled as
lists of records, and each UI handler that touches business state is
translated into an explicit state-passing function.  Errors are the exact
message strings thrown by the source.
-/

namespace KGym

/-! ## Calendar dates and JavaScript timestamps -/

/-- Calendar date, as stored in the `DATE` columns (`start_date`, `end_date`). -/
structure Date where
  year : Int
  month : Nat
  day : Nat
deriving DecidableEq, Repr

/-- Gregorian leap-year rule, as implemented by the JavaScript `Date` object. -/
def isLeapYear (y : Int) : Bool :=
  (y % 4 == 0 && y % 100 != 0) || (y % 400 == 0)

/-- Number of days in a month of a given year (JavaScript `Date` calendar). -/
def daysInMonth (y : Int) (m : Nat) : Nat :=
  if m = 2 then (if isLeapYear y then 29 else 28)
  else if m = 4 ∨ m = 6 ∨ m = 9 ∨ m = 11 then 30
  else 31

/-- A date whose month and day are in range for the Gregorian calendar. -/
def ValidDate (d : Date) : Prop :=
  1 ≤ d.month ∧ d.month ≤ 12 ∧ 1 ≤ d.day ∧ d.day ≤ daysInMonth d.year d.month

instance (d : Date) : Decidable (ValidDate d) := by
  unfold ValidDate; exact inferInstance

/-- Days since the Unix epoch 1970-01-01 of a civil date (the day count the
JavaScript engine uses for `Date.UTC(y, m-1, d)`); standard civil-from-days
arithmetic, with `/` the euclidean division of `Int` (floor, as every divisor
here is positive). -/
def daysFromCivil (y : Int) (m : Nat) (d : Nat) : Int :=
  let y2 : Int := if m ≤ 2 then y - 1 else y
  let era : Int := y2 / 400
  let yoe : Int := y2 - era * 400
  let mp : Nat := (m + 9) % 12
  let doy : Nat := (153 * mp + 2) / 5 + (d - 1)
  let doe : Int := yoe * 365 + yoe / 4 - yoe / 100 + (doy : Int)
  era * 146097 + doe - 719468

/-- Milliseconds per day, the divisor `1000 * 60 * 60 * 24` used throughout
the source for day arithmetic. -/
def msPerDay : Int := 86400000

/-- The timestamp (milliseconds since epoch) that `new Date(s)` yields for a
stored `YYYY-MM-DD` date string `s`: 00:00 UTC of that civil day. -/
def Date.toTimestamp (d : Date) : Int :=
  daysFromCivil d.year d.month d.day * msPerDay

example : daysFromCivil 1970 1 1 = 0 := by decide

example : daysFromCivil 2024 2 10 = 19763 := by decide

example : daysFromCivil 2024 3 2 = 19784 := by decide

/-- Ceiling division of integers for a positive divisor, the value
`Math.ceil(a / b)` computes on the (exact, for these magnitudes) float
quotient in the source. -/
def ceilDiv (a b : Int) : Int := -((-a) / b)

/-- Days-until-expiry computation repeated across the screens:
`Math.ceil((endDate.getTime() - today.getTime()) / (1000 * 60 * 60 * 24))`. -/
def daysUntilExpiry (endDate : Date) (now : Int) : Int :=
  ceilDiv (endDate.toTimestamp - now) msPerDay

/-! ## Data model (tables of the row store) -/

/-- Row of `profiles`. -/
structure Profile where
  id : String
  full_name : String
  role : String
  face_encoding : Option String
deriving DecidableEq, Repr

/-- Row of `plans`. -/
structure Plan where
  id : String
  name : String
  duration_months : Nat
  is_active : Bool
deriving DecidableEq, Repr

/-- Row of `student_plans`. -/
structure StudentPlan where
  id : String
  student_id : String
  plan_id : String
  start_date : Date
  end_date : Date
  status : String
deriving DecidableEq, Repr

/-- Row of `check_ins`; the store issues the `id` on insert. -/
structure CheckIn where
  id : String
  student_id : String
  check_in_time : Int
deriving DecidableEq, Repr

/-- The four tables the business rules touch, in store order. -/
structure DB where
  profiles : List Profile
  plans : List Plan
  student_plans : List StudentPlan
  check_ins : List CheckIn
deriving DecidableEq, Repr

/-! ## QR-style textual check-in codes -/

/-- Exact behaviour of JavaScript `s.split('-')` (single-character separator):
structural recursion over the characters. -/
def splitDash : List Char → List (List Char)
  | [] => [[]]
  | c :: cs =>
    if c = '-' then [] :: splitDash cs
    else
      match splitDash cs with
      | [] => [[c]]
      | g :: gs => (c :: g) :: gs

/-- JavaScript `qrCode.split('-')` as used by `processCheckIn`. -/
def splitOnDash (s : String) : List String :=
  (splitDash s.toList).map String.mk

/-- Code generation, from `generateStudentQR` / `generateQRCode`:
`KGYM-CHECKIN-<id>`. -/
def generateStudentQR (studentId : String) : String :=
  "KGYM-CHECKIN-" ++ studentId

/-- Parsing segment of `processCheckIn` (admin check-in screen):
`parts = qrCode.split('-')`; the attempt throws `QR Code inválido` unless
there are exactly three segments with the fixed first two. -/
def decodeCheckInCode (qrCode : String) : Except String String :=
  match splitOnDash qrCode with
  | [p0, p1, p2] =>
    if p0 = "KGYM" ∧ p1 = "CHECKIN" then Except.ok p2
    else Except.error "QR Code inválido"
  | _ => Except.error "QR Code inválido"

/-! ## Check-in eligibility gate -/

/-- Student lookup of `processCheckIn`: select from `profiles` by
`id = studentId` and `role = 'student'` (at most one row, `id` is the key). -/
def findStudentProfile (db : DB) (studentId : String) : Option Profile :=
  db.profiles.find? (fun p => p.id == studentId && p.role == "student")

/-- The nested `student_plans` fetch followed by
`student.student_plans?.find(sp => sp.status === 'active')`. -/
def activePlanOf (db : DB) (studentId : String) : Option StudentPlan :=
  (db.student_plans.filter (fun sp => sp.student_id == studentId)).find?
    (fun sp => sp.status == "active")

/-- Core of `processCheckIn` after the code has been parsed: resolve the
student, find the active plan, compare `end_date` (parsed to UTC midnight)
against the current timestamp, and on success insert one `check_ins` row
stamped `now`.  The row id the store generates on insert is passed in as
`newId`; the returned state is unchanged on every failure path, because the
source only issues the insert after all three checks pass. -/
def checkInGate (db : DB) (now : Int) (newId : String) (studentId : String) :
    DB × Except String CheckIn :=
  match findStudentProfile db studentId with
  | none => (db, Except.error "Aluno não encontrado")
  | some _ =>
    match activePlanOf db studentId with
    | none => (db, Except.error "Aluno sem plano ativo")
    | some activePlan =>
      if activePlan.end_date.toTimestamp < now then
        (db, Except.error "Plano expirado")
      else
        let row : CheckIn := { id := newId, student_id := studentId, check_in_time := now }
        ({ db with check_ins := db.check_ins ++ [row] }, Except.ok row)

/-- Full `processCheckIn` of the admin check-in screen: parse, then gate. -/
def processCheckIn (db : DB) (now : Int) (newId : String) (qrCode : String) :
    DB × Except String CheckIn :=
  match decodeCheckInCode qrCode with
  | Except.error e => (db, Except.error e)
  | Except.ok studentId => checkInGate db now newId studentId

/-! ## Membership status resolvers -/

/-- Status badge returned by the resolvers: machine status plus display label. -/
structure StatusBadge where
  status : String
  label : String
deriving DecidableEq, Repr

/-- Resolver `getStudentStatus` of the admin students list: no rows at all is
`Sem Plano`; otherwise the first row flagged `active` drives the
days-until-expiry thresholds; rows exist but none is `active` is `Inativo`. -/
def getStudentStatus (student_plans : List StudentPlan) (now : Int) : StatusBadge :=
  if student_plans.isEmpty then { status := "inactive", label := "Sem Plano" }
  else
    match student_plans.find? (fun sp => sp.status == "active") with
    | some activePlan =>
      let daysUntil := daysUntilExpiry activePlan.end_date now
      if daysUntil ≤ 0 then { status := "expired", label := "Expirado" }
      else if daysUntil ≤ 7 then { status := "expiring", label := "Expirando" }
      else { status := "active", label := "Ativo" }
    | none => { status := "inactive", label := "Inativo" }

/-- Resolver `getPlanStatus` of the student "Meu Plano" page: it receives the
most recent `student_plans` row regardless of stored status (or none), and
reports the stored status first, dates second. -/
def getPlanStatusStudentPlanPage (plan : Option StudentPlan) (now : Int) : StatusBadge :=
  match plan with
  | none => { status := "inactive", label := "Sem Plano" }
  | some p =>
    let daysUntil := daysUntilExpiry p.end_date now
    if p.status == "inactive" then { status := "inactive", label := "Inativo" }
    else if p.status == "expired" then { status := "expired", label := "Expirado" }
    else if daysUntil ≤ 0 then { status := "expired", label := "Expirado" }
    else if daysUntil ≤ 7 then { status := "expiring", label := "Expirando" }
    else { status := "active", label := "Ativo" }

/-! ## Plan assignment helper -/

/-- Month arithmetic of JavaScript `setMonth(getMonth() + k)`: the month index
advances by `k`, the year absorbs the overflow. -/
def monthAdd (y : Int) (m k : Nat) : Int × Nat :=
  (y + ((m - 1 + k) / 12 : Nat), (m - 1 + k) % 12 + 1)

/-- Helper `calculateEndDate` of the manage-student-plan dialog:
`end = new Date(start); end.setMonth(end.getMonth() + durationMonths)`,
then `toISOString().split('T')[0]`.  JavaScript does not clamp the
day-of-month: a day beyond the target month's length rolls the excess into
the following month (one normalization step suffices for any day ≤ 59). -/
def calculateEndDate (startDate : Date) (durationMonths : Nat) : Date :=
  let target := monthAdd startDate.year startDate.month durationMonths
  if startDate.day ≤ daysInMonth target.1 target.2 then
    { year := target.1, month := target.2, day := startDate.day }
  else
    let next := monthAdd target.1 target.2 1
    { year := next.1, month := next.2, day := startDate.day - daysInMonth target.1 target.2 }

/-! ## Plan deletion gate -/

/-- Handler `handleDelete` of `DeletePlanDialog`: count the `student_plans`
rows referencing the plan with status `active`; when any exist the store
delete is never issued (second component `false`) and nothing changes;
otherwise the delete of the `plans` row is issued. -/
def handleDeletePlan (db : DB) (planId : String) : DB × Bool :=
  let activeRefs := db.student_plans.filter
    (fun sp => sp.plan_id == planId && sp.status == "active")
  if 0 < activeRefs.length then (db, false)
  else ({ db with plans := db.plans.filter (fun p => !(p.id == planId)) }, true)

/-! ## Check-in history deletion -/

/-- Handler `confirmDelete` of `CheckInHistoryDialog`: delete from
`check_ins` the row whose `id` equals the selected check-in's id. -/
def confirmDeleteCheckIn (db : DB) (checkInId : String) : DB :=
  { db with check_ins := db.check_ins.filter (fun c => !(c.id == checkInId)) }

/-! ## Credential scheme -/

/-- JavaScript `s.replace(/\D/g, '')`: keep only the digit characters. -/
def cpfDigitsOnly (cpf : String) : String :=
  String.mk (cpf.toList.filter Char.isDigit)

/-- Password computed by `AddStudentDialog.onSubmit`:
`cpfDigits = data.cpf?.replace(/\D/g, '').slice(0, 6) || '123456'` followed by
`password = cpfDigits.length >= 6 ? cpfDigits : '123456'`. -/
def studentSignupPassword (cpf : String) : String :=
  let sliced := String.mk ((cpfDigitsOnly cpf).toList.take 6)
  let cpfDigits := if sliced = "" then "123456" else sliced
  if 6 ≤ cpfDigits.length then cpfDigits else "123456"

/-- Password sent by `onStudentLogin`: `data.cpf.replace(/\D/g, '')`. -/
def studentLoginPassword (cpf : String) : String :=
  cpfDigitsOnly cpf

/-! ## Face-recognition check-in path -/

/-- Handler `performFaceRecognition` of `FaceRecognitionCamera`: the captured
camera frame (`_frame`, modelled as raw pixel data) is drawn to a hidden
canvas and then never consulted; the store is queried for the profiles whose
`face_encoding` is non-null, and the first returned row is "recognized". -/
def performFaceRecognition (_frame : List Nat) (profiles : List Profile) : Option String :=
  let withFace := profiles.filter (fun p => p.face_encoding.isSome)
  match withFace.head? with
  | some recognizedProfile => some recognizedProfile.id
  | none => none

/-! ## Concrete fixtures used by the witnesses -/

/-- A student profile on record. -/
def studentEx : Profile :=
  { id := "s1", full_name := "Ana Silva", role := "student", face_encoding := none }

/-- An active membership term for `studentEx`, ending 2024-02-10. -/
def planRowEx : StudentPlan :=
  { id := "sp1", student_id := "s1", plan_id := "pl1",
    start_date := { year := 2024, month := 1, day := 10 },
    end_date := { year := 2024, month := 2, day := 10 }, status := "active" }

/-- Store holding the student and the active term. -/
def dbEx : DB :=
  { profiles := [studentEx], plans := [], student_plans := [planRowEx], check_ins := [] }

/-! ## C1: check-in code round trip -/

/-- C1: the claim demands `decode (encode s) = s` for every profile id,
including ids containing `-` such as the UUIDs the store issues
(`gen_random_uuid()` primary keys).  The code parses with `split('-')` and
requires exactly three segments, so every hyphenated id — hence every real
profile id — makes the round trip fail with `QR Code inválido`: the encoded
code for a UUID splits into seven segments.  Only hyphen-free ids round-trip. -/
theorem qr_roundtrip_uuid_bug :
    decodeCheckInCode (generateStudentQR "123e4567-e89b-12d3-a456-426614174000")
      = Except.error "QR Code inválido" ∧
    (splitOnDash (generateStudentQR "123e4567-e89b-12d3-a456-426614174000")).length = 7 ∧
    decodeCheckInCode (generateStudentQR "abc123") = Except.ok "abc123" ∧
    processCheckIn dbEx 0 "c1" (generateStudentQR "123e4567-e89b-12d3-a456-426614174000")
      = (dbEx, Except.error "QR Code inválido") := by
  exact ⟨rfl, rfl, rfl, rfl⟩

/-! ## C2: check-in eligibility gate -/

/-- C2: the gate applies its three checks in order — unknown student, no
active plan, expired plan — each failure is characterised exactly, no failure
path changes the store, and the success path appends exactly one `check_ins`
row for the student stamped with the call time. -/
theorem checkInGate_spec (db : DB) (now : Int) (newId studentId : String) :
    (∀ e, (checkInGate db now newId studentId).2 = Except.error e →
        (checkInGate db now newId studentId).1 = db) ∧
    ((checkInGate db now newId studentId).2 = Except.error "Aluno não encontrado" ↔
        findStudentProfile db studentId = none) ∧
    ((checkInGate db now newId studentId).2 = Except.error "Aluno sem plano ativo" ↔
        (findStudentProfile db studentId ≠ none ∧ activePlanOf db studentId = none)) ∧
    ((checkInGate db now newId studentId).2 = Except.error "Plano expirado" ↔
        (findStudentProfile db studentId ≠ none ∧
         ∃ ap, activePlanOf db studentId = some ap ∧ ap.end_date.toTimestamp < now)) ∧
    (∀ ap, findStudentProfile db studentId ≠ none →
        activePlanOf db studentId = some ap →
        now ≤ ap.end_date.toTimestamp →
        checkInGate db now newId studentId =
          ({ db with check_ins := db.check_ins ++
              [{ id := newId, student_id := studentId, check_in_time := now }] },
           Except.ok { id := newId, student_id := studentId, check_in_time := now }) ∧
        now ≤ ({ id := newId, student_id := studentId,
                 check_in_time := now } : CheckIn).check_in_time) := by
  rcases hf : findStudentProfile db studentId with _ | p
  · refine ⟨fun e _ => by simp [checkInGate, hf], ?_, ?_, ?_, ?_⟩
    · simp [checkInGate, hf]
    · simp [checkInGate, hf]
    · simp [checkInGate, hf]
    · intro ap hne _ _
      exact absurd rfl hne
  · rcases ha : activePlanOf db studentId with _ | ap
    · refine ⟨fun e _ => by simp [checkInGate, hf, ha], ?_, ?_, ?_, ?_⟩
      · simp [checkInGate, hf, ha]
      · simp [checkInGate, hf, ha]
      · simp [checkInGate, hf, ha]
      · intro ap2 _ h2 _
        exact Option.noConfusion h2
    · by_cases hex : ap.end_date.toTimestamp < now
      · refine ⟨fun e _ => by simp [checkInGate, hf, ha, hex], ?_, ?_, ?_, ?_⟩
        · simp [checkInGate, hf, ha, hex]
        · simp [checkInGate, hf, ha, hex]
        · simp [checkInGate, hf, ha, hex]
        · intro ap2 _ h2 hnow
          cases h2
          exact absurd hnow (not_le.mpr hex)
      · refine ⟨?_, ?_, ?_, ?_, ?_⟩
        · intro e he
          simp [checkInGate, hf, ha, hex] at he
        · simp [checkInGate, hf, ha, hex]
        · simp [checkInGate, hf, ha, hex]
        · simp [checkInGate, hf, ha, hex]
        · intro ap2 _ h2 _
          cases h2
          exact ⟨by simp [checkInGate, hf, ha, hex], le_refl now⟩

/-- C2 witness: in the concrete store the gate succeeds and appends the one
expected row. -/
theorem checkInGate_spec_witness :
    checkInGate dbEx 1707000000000 "c1" "s1" =
      ({ dbEx with check_ins :=
          [{ id := "c1", student_id := "s1", check_in_time := 1707000000000 }] },
       Except.ok { id := "c1", student_id := "s1", check_in_time := 1707000000000 }) := by
  have h := ((checkInGate_spec dbEx 1707000000000 "c1" "s1").2.2.2.2 planRowEx
    (by decide) (by decide) (by decide)).1
  simpa [dbEx] using h

/-! ## C8: check-ins are insert-only; check-in writes only `check_ins` -/

/-- C8: the check-in gate never touches `profiles`, `plans` or
`student_plans` (in particular a successful check-in mutates no `StudentPlan`
row, whatever the current time), and its `check_ins` table is either
unchanged or extended by the single new row; the admin history deletion only
removes rows (the surviving list is a sublist of the old one, and no row with
the deleted id survives) and touches no other table; the plan-delete handler
never touches `check_ins`.  Together with the absence of any other
`check_ins` access in the source, check-in rows are only inserted or
deleted, never updated. -/
theorem checkins_frame_spec (db : DB) (now : Int)
    (newId studentId checkInId planId : String) :
    ((checkInGate db now newId studentId).1.profiles = db.profiles ∧
     (checkInGate db now newId studentId).1.plans = db.plans ∧
     (checkInGate db now newId studentId).1.student_plans = db.student_plans) ∧
    ((checkInGate db now newId studentId).1.check_ins = db.check_ins ∨
     (checkInGate db now newId studentId).1.check_ins =
       db.check_ins ++ [{ id := newId, student_id := studentId, check_in_time := now }]) ∧
    ((confirmDeleteCheckIn db checkInId).profiles = db.profiles ∧
     (confirmDeleteCheckIn db checkInId).plans = db.plans ∧
     (confirmDeleteCheckIn db checkInId).student_plans = db.student_plans) ∧
    (confirmDeleteCheckIn db checkInId).check_ins.Sublist db.check_ins ∧
    (confirmDeleteCheckIn db checkInId).check_ins.filter (fun c => c.id == checkInId) = [] ∧
    (handleDeletePlan db planId).1.check_ins = db.check_ins := by
  refine ⟨?_, ?_, ⟨rfl, rfl, rfl⟩, List.filter_sublist _, ?_, ?_⟩
  · rcases hf : findStudentProfile db studentId with _ | p
    · simp [checkInGate, hf]
    · rcases ha : activePlanOf db studentId with _ | ap
      · simp [checkInGate, hf, ha]
      · by_cases hex : ap.end_date.toTimestamp < now
        · simp [checkInGate, hf, ha, hex]
        · simp [checkInGate, hf, ha, hex]
  · rcases hf : findStudentProfile db studentId with _ | p
    · exact Or.inl (by simp [checkInGate, hf])
    · rcases ha : activePlanOf db studentId with _ | ap
      · exact Or.inl (by simp [checkInGate, hf, ha])
      · by_cases hex : ap.end_date.toTimestamp < now
        · exact Or.inl (by simp [checkInGate, hf, ha, hex])
        · exact Or.inr (by simp [checkInGate, hf, ha, hex])
  · simp [confirmDeleteCheckIn, List.filter_filter]
  · simp only [handleDeletePlan]
    split <;> rfl

/-! ## C3: status resolver on the active plan -/

/-- Evaluation of the students-list resolver when an `active`-flagged row is
found: the thresholds on the days-until-expiry value decide the badge. -/
lemma getStudentStatus_eq_of_find (student_plans : List StudentPlan) (now : Int)
    (ap : StudentPlan)
    (hfind : student_plans.find? (fun sp => sp.status == "active") = some ap) :
    getStudentStatus student_plans now =
      (if daysUntilExpiry ap.end_date now ≤ 0 then
        { status := "expired", label := "Expirado" }
      else if daysUntilExpiry ap.end_date now ≤ 7 then
        { status := "expiring", label := "Expirando" }
      else { status := "active", label := "Ativo" }) := by
  have hne : student_plans.isEmpty = false := by
    cases student_plans <;> simp_all
  simp [getStudentStatus, hne, hfind]

/-- C3 counterexample: at the instant the stored end date parses to (00:00
UTC of the end date, `days_remaining = 0`), the resolver returns `expired`,
so neither "expired iff `end_date < today`" (the comparison is false at
equality) nor "expiring iff `0 ≤ days_remaining ≤ 7`" holds as claimed. -/
theorem status_claim_boundary_counterexample :
    (getStudentStatus [planRowEx] planRowEx.end_date.toTimestamp).status = "expired" ∧
    daysUntilExpiry planRowEx.end_date planRowEx.end_date.toTimestamp = 0 ∧
    ¬ ((getStudentStatus [planRowEx] planRowEx.end_date.toTimestamp).status = "expired" ↔
        planRowEx.end_date.toTimestamp < planRowEx.end_date.toTimestamp) ∧
    ¬ ((getStudentStatus [planRowEx] planRowEx.end_date.toTimestamp).status = "expiring" ↔
        (0 ≤ daysUntilExpiry planRowEx.end_date planRowEx.end_date.toTimestamp ∧
         daysUntilExpiry planRowEx.end_date planRowEx.end_date.toTimestamp ≤ 7)) := by
  decide

/-- C3 (amended): for a student whose plan list contains an `active`-flagged
row, with `days_remaining = ceil((end_date − now) / 1 day)`, the resolver
returns `expired` iff `days_remaining ≤ 0` (equivalently `end_date ≤ now` as
timestamps, so the whole end day after its first instant is already
`expired`), `expiring` iff `1 ≤ days_remaining ≤ 7`, and `active` iff
`days_remaining > 7`. -/
theorem getStudentStatus_active_spec (student_plans : List StudentPlan) (now : Int)
    (ap : StudentPlan)
    (hfind : student_plans.find? (fun sp => sp.status == "active") = some ap) :
    ((getStudentStatus student_plans now).status = "expired" ↔
        daysUntilExpiry ap.end_date now ≤ 0) ∧
    ((getStudentStatus student_plans now).status = "expiring" ↔
        (1 ≤ daysUntilExpiry ap.end_date now ∧ daysUntilExpiry ap.end_date now ≤ 7)) ∧
    ((getStudentStatus student_plans now).status = "active" ↔
        7 < daysUntilExpiry ap.end_date now) ∧
    (daysUntilExpiry ap.end_date now ≤ 0 ↔ ap.end_date.toTimestamp ≤ now) := by
  have hd0 : daysUntilExpiry ap.end_date now ≤ 0 ↔ ap.end_date.toTimestamp ≤ now := by
    simp only [daysUntilExpiry, ceilDiv, msPerDay]
    omega
  rw [getStudentStatus_eq_of_find student_plans now ap hfind]
  split_ifs with h0 h7 <;> refine ⟨?_, ?_, ?_, hd0⟩ <;> simp <;> omega

/-- C3 witness: five days before the end date the resolver reports
`expiring`, via the amended characterisation. -/
theorem getStudentStatus_active_spec_witness :
    (getStudentStatus [planRowEx] (Date.toTimestamp { year := 2024, month := 2, day := 5 })).status
      = "expiring" := by
  have h := (getStudentStatus_active_spec [planRowEx]
    (Date.toTimestamp { year := 2024, month := 2, day := 5 }) planRowEx (by decide)).2.1
  exact h.mpr (by decide)

/-! ## C4: calendar-month end-date computation -/

/-- Month lengths lie between 28 and 31. -/
lemma daysInMonth_bounds (y : Int) (m : Nat) :
    28 ≤ daysInMonth y m ∧ daysInMonth y m ≤ 31 := by
  unfold daysInMonth
  split_ifs <;> omega

/-- Month component of `monthAdd` stays in `1..12`. -/
lemma monthAdd_month_range (y : Int) (m k : Nat) :
    1 ≤ (monthAdd y m k).2 ∧ (monthAdd y m k).2 ≤ 12 := by
  simp only [monthAdd]
  omega

/-- Month component of `monthAdd` is congruent to `m + k` modulo 12. -/
lemma monthAdd_month_mod (y : Int) (m k : Nat) (hm : 1 ≤ m) :
    (monthAdd y m k).2 % 12 = (m + k) % 12 := by
  simp only [monthAdd]
  omega

/-- Evaluation of `calculateEndDate` when the start's day-of-month fits in
the target month. -/
lemma calculateEndDate_eq_of_le (startDate : Date) (k : Nat)
    (h : startDate.day ≤ daysInMonth (monthAdd startDate.year startDate.month k).1
        (monthAdd startDate.year startDate.month k).2) :
    calculateEndDate startDate k =
      { year := (monthAdd startDate.year startDate.month k).1,
        month := (monthAdd startDate.year startDate.month k).2,
        day := startDate.day } := by
  simp only [calculateEndDate]
  rw [if_pos h]

/-- Evaluation of `calculateEndDate` when the start's day-of-month overflows
the target month: the excess rolls into the following month. -/
lemma calculateEndDate_eq_of_gt (startDate : Date) (k : Nat)
    (h : daysInMonth (monthAdd startDate.year startDate.month k).1
        (monthAdd startDate.year startDate.month k).2 < startDate.day) :
    calculateEndDate startDate k =
      { year := (monthAdd (monthAdd startDate.year startDate.month k).1
          (monthAdd startDate.year startDate.month k).2 1).1,
        month := (monthAdd (monthAdd startDate.year startDate.month k).1
          (monthAdd startDate.year startDate.month k).2 1).2,
        day := startDate.day - daysInMonth (monthAdd startDate.year startDate.month k).1
          (monthAdd startDate.year startDate.month k).2 } := by
  simp only [calculateEndDate]
  rw [if_neg (not_le.mpr h)]

/-- C4 counterexample: the claim predicts clamping (`2024-01-31 + 1 month =
2024-02-29`), but JavaScript `setMonth` rolls the overflow forward, giving
`2024-03-02`; the claimed month congruence also fails there. -/
theorem calculateEndDate_claim_counterexample :
    calculateEndDate { year := 2024, month := 1, day := 31 } 1 =
      { year := 2024, month := 3, day := 2 } ∧
    calculateEndDate { year := 2024, month := 1, day := 31 } 1 ≠
      { year := 2024, month := 2, day := 29 } ∧
    (calculateEndDate { year := 2024, month := 1, day := 31 } 1).month % 12 ≠ (1 + 1) % 12 := by
  decide

/-- C4 (amended): `calculateEndDate` is deterministic under re-computation;
its result is always a valid date; when the start's day-of-month fits in the
month `duration_months` later, the result is exactly that month with the same
day (and the claimed month congruence holds); when the day overflows, the
excess days roll into the following month — JavaScript `setMonth` semantics —
instead of clamping, and the month advances one beyond the claimed one. -/
theorem calculateEndDate_spec (startDate : Date) (durationMonths : Nat)
    (hv : ValidDate startDate) (_hm : 1 ≤ durationMonths) :
    (∀ s2 k2, s2 = startDate → k2 = durationMonths →
        calculateEndDate s2 k2 = calculateEndDate startDate durationMonths) ∧
    ValidDate (calculateEndDate startDate durationMonths) ∧
    (startDate.day ≤ daysInMonth (monthAdd startDate.year startDate.month durationMonths).1
        (monthAdd startDate.year startDate.month durationMonths).2 →
      calculateEndDate startDate durationMonths =
        { year := (monthAdd startDate.year startDate.month durationMonths).1,
          month := (monthAdd startDate.year startDate.month durationMonths).2,
          day := startDate.day } ∧
      (calculateEndDate startDate durationMonths).month % 12 =
        (startDate.month + durationMonths) % 12) ∧
    (daysInMonth (monthAdd startDate.year startDate.month durationMonths).1
        (monthAdd startDate.year startDate.month durationMonths).2 < startDate.day →
      (calculateEndDate startDate durationMonths).day =
        startDate.day - daysInMonth (monthAdd startDate.year startDate.month durationMonths).1
          (monthAdd startDate.year startDate.month durationMonths).2 ∧
      (calculateEndDate startDate durationMonths).month % 12 =
        (startDate.month + durationMonths + 1) % 12) := by
  obtain ⟨hm1, hm2, hd1, hd2⟩ := hv
  have hbs := daysInMonth_bounds startDate.year startDate.month
  have hbt := daysInMonth_bounds (monthAdd startDate.year startDate.month durationMonths).1
    (monthAdd startDate.year startDate.month durationMonths).2
  have hrt := monthAdd_month_range startDate.year startDate.month durationMonths
  have hmt := monthAdd_month_mod startDate.year startDate.month durationMonths hm1
  refine ⟨fun s2 k2 hs hk => by rw [hs, hk], ?_, ?_, ?_⟩
  · by_cases hday : startDate.day ≤
        daysInMonth (monthAdd startDate.year startDate.month durationMonths).1
          (monthAdd startDate.year startDate.month durationMonths).2
    · rw [calculateEndDate_eq_of_le startDate durationMonths hday]
      exact ⟨hrt.1, hrt.2, hd1, hday⟩
    · have hgt := not_le.mp hday
      rw [calculateEndDate_eq_of_gt startDate durationMonths hgt]
      have hrn := monthAdd_month_range
        (monthAdd startDate.year startDate.month durationMonths).1
        (monthAdd startDate.year startDate.month durationMonths).2 1
      have hbn := daysInMonth_bounds
        (monthAdd (monthAdd startDate.year startDate.month durationMonths).1
          (monthAdd startDate.year startDate.month durationMonths).2 1).1
        (monthAdd (monthAdd startDate.year startDate.month durationMonths).1
          (monthAdd startDate.year startDate.month durationMonths).2 1).2
      refine ⟨hrn.1, hrn.2, ?_, ?_⟩ <;> dsimp only <;> omega
  · intro hday
    rw [calculateEndDate_eq_of_le startDate durationMonths hday]
    exact ⟨rfl, hmt⟩
  · intro hgt
    rw [calculateEndDate_eq_of_gt startDate durationMonths hgt]
    refine ⟨rfl, ?_⟩
    have hmn := monthAdd_month_mod
      (monthAdd startDate.year startDate.month durationMonths).1
      (monthAdd startDate.year startDate.month durationMonths).2 1 hrt.1
    dsimp only
    omega

/-- C4 witness: a non-overflowing start (2024-01-10 plus one month) lands on
2024-02-10, a valid date, via the amended theorem. -/
theorem calculateEndDate_spec_witness :
    calculateEndDate { year := 2024, month := 1, day := 10 } 1 =
      { year := 2024, month := 2, day := 10 } ∧
    ValidDate (calculateEndDate { year := 2024, month := 1, day := 10 } 1) := by
  have h := calculateEndDate_spec { year := 2024, month := 1, day := 10 } 1
    (by decide) (by decide)
  exact ⟨(h.2.2.1 (by decide)).1, h.2.1⟩

/-! ## C5: students without an active-flagged plan -/

/-- A membership term stored as `expired` whose end date is far in the
future. -/
def spExpiredFutureEx : StudentPlan :=
  { id := "sp2", student_id := "s1", plan_id := "pl1",
    start_date := { year := 2024, month := 1, day := 1 },
    end_date := { year := 2030, month := 1, day := 1 }, status := "expired" }

/-- C5 counterexample: the student plan page resolver reports the stored
status of the most recent row, so a sole row stored `expired` with an end
date that has not yet passed is shown `expired`, not `inactive` as the claim
requires of "the membership status resolver". -/
theorem inactive_claim_counterexample :
    spExpiredFutureEx.status ≠ "active" ∧
    Date.toTimestamp { year := 2024, month := 6, day := 1 } <
      spExpiredFutureEx.end_date.toTimestamp ∧
    (getPlanStatusStudentPlanPage (some spExpiredFutureEx)
        (Date.toTimestamp { year := 2024, month := 6, day := 1 })).status = "expired" ∧
    (getPlanStatusStudentPlanPage (some spExpiredFutureEx)
        (Date.toTimestamp { year := 2024, month := 6, day := 1 })).status ≠ "inactive" := by
  decide

/-- C5 (amended): the students-list resolver does return `inactive` whenever
no row is `active`-flagged, regardless of the remaining rows' dates and
stored statuses; the student plan page resolver, however, echoes the stored
status of its (most recent) row — `inactive` for a row stored `inactive` but
`expired` for a row stored `expired` — and returns `inactive` only in the
no-row and stored-`inactive` cases. -/
theorem no_active_plan_status_spec (student_plans : List StudentPlan) (now : Int)
    (p : StudentPlan) :
    ((∀ sp ∈ student_plans, sp.status ≠ "active") →
        (getStudentStatus student_plans now).status = "inactive") ∧
    (p.status = "inactive" →
        (getPlanStatusStudentPlanPage (some p) now).status = "inactive") ∧
    (p.status = "expired" →
        (getPlanStatusStudentPlanPage (some p) now).status = "expired") ∧
    (getPlanStatusStudentPlanPage none now).status = "inactive" := by
  refine ⟨?_, ?_, ?_, rfl⟩
  · intro h
    have hfind : student_plans.find? (fun sp => sp.status == "active") = none := by
      apply List.find?_eq_none.mpr
      intro sp hsp
      simpa using h sp hsp
    by_cases he : student_plans.isEmpty
    · simp [getStudentStatus, he]
    · simp [getStudentStatus, he, hfind]
  · intro h
    simp [getPlanStatusStudentPlanPage, h]
  · intro h
    simp [getPlanStatusStudentPlanPage, h]

/-- C5 witness: a student whose only row is the stored-`expired` term is
`inactive` on the students list but `expired` on the plan page. -/
theorem no_active_plan_status_spec_witness :
    (getStudentStatus [spExpiredFutureEx] 0).status = "inactive" ∧
    (getPlanStatusStudentPlanPage (some spExpiredFutureEx) 0).status = "expired" := by
  have h := no_active_plan_status_spec [spExpiredFutureEx] 0 spExpiredFutureEx
  exact ⟨h.1 (by decide), h.2.2.1 (by decide)⟩

/-! ## C6: plan deletion gate -/

/-- C6: the plan delete is blocked at the application layer — no store
request issued, state unchanged — whenever some `student_plans` row
references the plan with status `active`; with zero active references, the
delete is issued, the plan's row is gone and every other table (and every
other plan) is untouched. -/
theorem deletePlan_gate_spec (db : DB) (planId : String) :
    ((∃ sp ∈ db.student_plans, sp.plan_id = planId ∧ sp.status = "active") →
        handleDeletePlan db planId = (db, false)) ∧
    ((∀ sp ∈ db.student_plans, ¬(sp.plan_id = planId ∧ sp.status = "active")) →
        (handleDeletePlan db planId).2 = true ∧
        (handleDeletePlan db planId).1.plans = db.plans.filter (fun p => !(p.id == planId)) ∧
        (handleDeletePlan db planId).1.plans.filter (fun p => p.id == planId) = [] ∧
        (handleDeletePlan db planId).1.profiles = db.profiles ∧
        (handleDeletePlan db planId).1.student_plans = db.student_plans ∧
        (handleDeletePlan db planId).1.check_ins = db.check_ins) := by
  constructor
  · rintro ⟨sp, hmem, h1, h2⟩
    have hmem2 : sp ∈ db.student_plans.filter
        (fun sp => sp.plan_id == planId && sp.status == "active") :=
      List.mem_filter.mpr ⟨hmem, by simp [h1, h2]⟩
    have hlen := List.length_pos_of_mem hmem2
    simp only [handleDeletePlan]
    rw [if_pos hlen]
  · intro h
    have hnil : db.student_plans.filter
        (fun sp => sp.plan_id == planId && sp.status == "active") = [] := by
      apply List.filter_eq_nil_iff.mpr
      intro sp hsp
      simpa using h sp hsp
    simp only [handleDeletePlan, hnil]
    rw [if_neg (by simp)]
    refine ⟨rfl, rfl, ?_, rfl, rfl, rfl⟩
    simp [List.filter_filter]

/-- A catalog plan referenced by the fixtures. -/
def planEx : Plan :=
  { id := "pl1", name := "Mensal", duration_months := 1, is_active := true }

/-- Store where `planEx` has an active reference. -/
def dbPlanRefEx : DB :=
  { profiles := [], plans := [planEx], student_plans := [planRowEx], check_ins := [] }

/-- Store where `planEx` has no active reference. -/
def dbPlanFreeEx : DB :=
  { profiles := [], plans := [planEx], student_plans := [], check_ins := [] }

/-- C6 witness: with one active reference the delete is blocked and nothing
changes; with none, the delete goes through and the plan row is gone. -/
theorem deletePlan_gate_spec_witness :
    handleDeletePlan dbPlanRefEx "pl1" = (dbPlanRefEx, false) ∧
    (handleDeletePlan dbPlanFreeEx "pl1").2 = true ∧
    (handleDeletePlan dbPlanFreeEx "pl1").1.plans = [] := by
  have hblock := (deletePlan_gate_spec dbPlanRefEx "pl1").1
    ⟨planRowEx, by decide, by decide, by decide⟩
  have hfree := (deletePlan_gate_spec dbPlanFreeEx "pl1").2 (by decide)
  exact ⟨hblock, hfree.1, hfree.2.1.trans (by decide)⟩

/-! ## C7: CPF-derived credentials -/

/-- C7 counterexample: the entered CPF `12.345` passes the form's six-character
validation but has only five digit characters, so the account is created with
the fallback password `123456`, which differs from (the first six of) the
CPF's digits. -/
theorem cpf_password_counterexample :
    6 ≤ "12.345".length ∧
    cpfDigitsOnly "12.345" = "12345" ∧
    String.mk ((cpfDigitsOnly "12.345").toList.take 6) = "12345" ∧
    studentSignupPassword "12.345" = "123456" ∧
    studentSignupPassword "12.345" ≠ "12345" := by
  decide

/-- C7 (amended): the sign-up password equals the first six digit characters
of the entered CPF whenever the CPF contains at least six digits; with fewer
digits the fallback literal `123456` is used instead.  The student login
flow sends all digit characters of the entered CPF as the password. -/
theorem cpf_password_spec (cpf : String) :
    (6 ≤ (cpfDigitsOnly cpf).length →
        studentSignupPassword cpf = String.mk ((cpfDigitsOnly cpf).toList.take 6)) ∧
    ((cpfDigitsOnly cpf).length < 6 → studentSignupPassword cpf = "123456") ∧
    studentLoginPassword cpf = cpfDigitsOnly cpf := by
  refine ⟨?_, ?_, rfl⟩
  · intro h
    have h' : 6 ≤ (cpfDigitsOnly cpf).toList.length := h
    have hne : String.mk ((cpfDigitsOnly cpf).toList.take 6) ≠ "" := by
      intro he
      have hlen0 : ((cpfDigitsOnly cpf).toList.take 6).length = 0 := by
        have := congrArg String.length he
        simpa using this
      rw [List.length_take] at hlen0
      omega
    have hcond : 6 ≤ (String.mk ((cpfDigitsOnly cpf).toList.take 6)).length := by
      show 6 ≤ ((cpfDigitsOnly cpf).toList.take 6).length
      rw [List.length_take]
      omega
    simp only [studentSignupPassword, if_neg hne, if_pos hcond]
  · intro h
    have h' : (cpfDigitsOnly cpf).toList.length < 6 := h
    by_cases hemp : String.mk ((cpfDigitsOnly cpf).toList.take 6) = ""
    · simp only [studentSignupPassword, if_pos hemp]
      split <;> rfl
    · have hcond : ¬ 6 ≤ (String.mk ((cpfDigitsOnly cpf).toList.take 6)).length := by
        show ¬ 6 ≤ ((cpfDigitsOnly cpf).toList.take 6).length
        rw [List.length_take]
        omega
      simp only [studentSignupPassword, if_neg hemp, if_neg hcond]

/-- C7 witness: a full CPF yields its first six digits as the sign-up
password, and login forwards the digits typed. -/
theorem cpf_password_spec_witness :
    studentSignupPassword "529.982.247-25" = "529982" ∧
    studentLoginPassword "529982" = "529982" := by
  have h := cpf_password_spec "529.982.247-25"
  have h2 := cpf_password_spec "529982"
  exact ⟨(h.1 (by decide)).trans (by decide), h2.2.2.trans (by decide)⟩

/-! ## C9: image-independence of the face-recognition path -/

/-- Head of a filtered list is the first element satisfying the predicate. -/
lemma head?_filter_eq_find? {α : Type} (p : α → Bool) (l : List α) :
    (l.filter p).head? = l.find? p := by
  induction l with
  | nil => rfl
  | cons a t ih =>
    by_cases h : p a
    · simp [List.filter_cons, h]
    · simp [List.filter_cons, h, ih]

/-- C9: two runs of the face-recognition flow with different captured frames
but the same stored profiles resolve identically, and whenever some profile
has a non-null `face_encoding`, the flow resolves to the id of the first such
profile in store order — the captured image has no influence. -/
theorem faceRecognition_image_independent (frame1 frame2 : List Nat)
    (profiles : List Profile) :
    performFaceRecognition frame1 profiles = performFaceRecognition frame2 profiles ∧
    ((∃ q ∈ profiles, q.face_encoding.isSome) →
        ∃ p, profiles.find? (fun x => x.face_encoding.isSome) = some p ∧
          performFaceRecognition frame1 profiles = some p.id) := by
  refine ⟨rfl, ?_⟩
  rintro ⟨q, hq, henc⟩
  have hsome : (profiles.find? (fun x => x.face_encoding.isSome)).isSome :=
    List.find?_isSome.mpr ⟨q, hq, henc⟩
  obtain ⟨p, hp⟩ := Option.isSome_iff_exists.mp hsome
  refine ⟨p, hp, ?_⟩
  simp [performFaceRecognition, head?_filter_eq_find?, hp]

/-- A student profile carrying stored face data. -/
def profileFaceEx : Profile :=
  { id := "s2", full_name := "Bruno Costa", role := "student",
    face_encoding := some "face-data-v1" }

/-- C9 witness: with one encoded profile on record, two different captured
frames both resolve to that profile's id. -/
theorem faceRecognition_image_independent_witness :
    performFaceRecognition [1, 2, 3] [studentEx, profileFaceEx] = some "s2" ∧
    performFaceRecognition [1, 2, 3] [studentEx, profileFaceEx] =
      performFaceRecognition [9] [studentEx, profileFaceEx] := by
  have hind := (faceRecognition_image_independent [1, 2, 3] [9]
    [studentEx, profileFaceEx]).1
  obtain ⟨p, hp, hres⟩ := (faceRecognition_image_independent [1, 2, 3] [9]
    [studentEx, profileFaceEx]).2 ⟨profileFaceEx, by decide, by decide⟩
  have h2 : List.find? (fun x => x.face_encoding.isSome) [studentEx, profileFaceEx] =
      some profileFaceEx := rfl
  rw [h2] at hp
  injection hp with hp2
  subst hp2
  exact ⟨hres, hind⟩

/-! ## C10: the expiry comparison is an exclusive timestamp bound -/

/-- C10: the gate's expiry test compares full timestamps: the stored end
date parses to 00:00 UTC of that day (a multiple of `msPerDay`), and —
student and active plan being resolved — the attempt fails with
`Plano expirado` exactly when the current timestamp is strictly past that
instant; every instant from the start of the previous day up to and
including the end date's first instant still succeeds, so the last full day
of successful check-ins is the day before `end_date`. -/
theorem expiry_exclusive_bound_spec (db : DB) (newId studentId : String)
    (ap : StudentPlan)
    (hf : findStudentProfile db studentId ≠ none)
    (ha : activePlanOf db studentId = some ap) :
    ap.end_date.toTimestamp % msPerDay = 0 ∧
    (∀ now, (checkInGate db now newId studentId).2 = Except.error "Plano expirado" ↔
        ap.end_date.toTimestamp < now) ∧
    (∀ now, ap.end_date.toTimestamp - msPerDay ≤ now →
        now ≤ ap.end_date.toTimestamp →
        (checkInGate db now newId studentId).2 =
          Except.ok { id := newId, student_id := studentId, check_in_time := now }) := by
  obtain ⟨p, hp⟩ := Option.ne_none_iff_exists'.mp hf
  refine ⟨by simp [Date.toTimestamp, Int.mul_emod_left], ?_, ?_⟩
  · intro now
    by_cases hex : ap.end_date.toTimestamp < now
    · simp [checkInGate, hp, ha, hex]
    · simp [checkInGate, hp, ha, hex]
  · intro now _ h2
    have hex : ¬ ap.end_date.toTimestamp < now := not_lt.mpr h2
    simp [checkInGate, hp, ha, hex]

/-- C10 witness: the end date 2024-02-10 parses to 1707523200000; one
millisecond before that instant the check-in succeeds, one millisecond after
it fails as expired. -/
theorem expiry_exclusive_bound_spec_witness :
    (checkInGate dbEx 1707523199999 "c1" "s1").2 =
      Except.ok { id := "c1", student_id := "s1", check_in_time := 1707523199999 } ∧
    (checkInGate dbEx 1707523200001 "c1" "s1").2 = Except.error "Plano expirado" := by
  have h := expiry_exclusive_bound_spec dbEx "c1" "s1" planRowEx (by decide) (by decide)
  exact ⟨h.2.2 1707523199999 (by decide) (by decide),
    (h.2.1 1707523200001).mpr (by decide)⟩

end KGym
